import Mathlib

/-!
Verification of the MediDerma-AI disambiguation and enrichment engine.

The definitions below are a shallow embedding of the backend source:

* `backend/app/services/disease_info_service.py` — the knowledge fetch
  adapter `DiseaseInfoService.get_disease_info`, which calls an external
  text generator, strips markdown fences, extracts and parses a JSON
  payload, and degrades to fallback records on parse or transport failure.
* `backend/app/routers/scan.py` — the `/analyze` and `/analyze-base64`
  endpoints, which turn the classifier output (disease name, confidence,
  probability distribution) into the response, deciding ambiguity and
  enriching up to three candidate diseases.

Python dictionaries are modelled as association lists over `PyVal`
(first-match lookup, new writes consed on the front so that lookup sees
the latest write).  Probabilities and thresholds are exact rationals.
The external generator, the regex JSON extraction and `json.loads` are
oracles passed in as function parameters; the theorems quantify over
them (or pin them by hypothesis), so all of their outcome classes are
covered.
-/

/-- A Python value as it appears in the dictionaries handled by the
service layer: strings, lists and string-keyed dictionaries. -/
inductive PyVal where
  | str : String → PyVal
  | list : List PyVal → PyVal
  | dict : List (String × PyVal) → PyVal

/-- A Python dictionary with string keys, as an association list.  The
most recent write is the first entry with the given key. -/
abbrev PyDict := List (String × PyVal)

/-- First-match association-list lookup (`d[k]` / `d.get(k)` on a
dictionary whose latest write for a key is its first occurrence). -/
def dictFind {α : Type} (m : List (String × α)) (k : String) : Option α :=
  match m with
  | [] => none
  | (k2, v) :: rest => if k2 = k then some v else dictFind rest k

/-- `d.get(k, default)` on a Python dictionary. -/
def pyGet (m : PyDict) (k : String) (dflt : PyVal) : PyVal :=
  (dictFind m k).getD dflt

/-- The key list of a dictionary, in order. -/
def keysOf {α : Type} (m : List (String × α)) : List String :=
  m.map Prod.fst

/-- Python string slice `s[n:]` (drop the first `n` characters). -/
def pySliceFrom (s : String) (n : Nat) : String :=
  String.mk (s.toList.drop n)

/-- Python string slice `s[:n]` (keep the first `n` characters). -/
def pySliceTo (s : String) (n : Nat) : String :=
  String.mk (s.toList.take n)

/-- Python string slice `s[:-n]` (drop the last `n` characters). -/
def pySliceUpToNeg (s : String) (n : Nat) : String :=
  String.mk (s.toList.take (s.toList.length - n))

/-- Python whitespace test used by `str.strip()`. -/
def pySpace (c : Char) : Bool :=
  c = ' ' || c = '\t' || c = '\n' || c = '\r'

/-- Python `s.strip()`: remove leading and trailing whitespace. -/
def pyStrip (s : String) : String :=
  String.mk (((s.toList.dropWhile pySpace).reverse.dropWhile pySpace).reverse)

/-- Python `s.startswith(p)`. -/
def pyStartsWith (s p : String) : Bool :=
  p.toList.isPrefixOf s.toList

/-- Python `s.endswith(p)`. -/
def pyEndsWith (s p : String) : Bool :=
  p.toList.isSuffixOf s.toList

/-- `disease_full_names` from `disease_info_service.py` lines 34-41,
applied through `disease_full_names.get(disease_name, disease_name)`. -/
def diseaseFullNames : List (String × String) :=
  [("BCC", "Basal Cell Carcinoma"),
   ("SCC", "Squamous Cell Carcinoma"),
   ("Melanoma", "Melanoma"),
   ("Acne", "Acne"),
   ("Eczema", "Eczema"),
   ("Psoriasis", "Psoriasis")]

/-- `full_name = disease_full_names.get(disease_name, disease_name)`. -/
def fullNameOf (diseaseName : String) : String :=
  (dictFind diseaseFullNames diseaseName).getD diseaseName

/-- The outcome of the external `model.generate_content` call together
with reading `response.text`: either an exception is raised (timeout,
transport error, blocked/empty response, source error), or a raw text is
obtained. -/
inductive GenOutcome where
  | raise
  | text : String → GenOutcome

/-- The backquote character (code point 96) used by markdown fences. -/
def backquote : Char := Char.ofNat 96

/-- The three-character markdown fence marker. -/
def fenceMarker : String := String.mk (List.replicate 3 backquote)

/-- The seven-character json-annotated markdown fence opener. -/
def fenceJsonMarker : String := String.mk (List.replicate 3 backquote ++ ['j', 's', 'o', 'n'])

/-- Markdown fence stripping, `disease_info_service.py` lines 85-90:
drop a leading json-annotated fence opener (7 chars) or bare fence
marker (3 chars), then a trailing fence marker (3 chars). -/
def stripFences (t : String) : String :=
  let t1 :=
    if pyStartsWith t fenceJsonMarker then pySliceFrom t 7
    else if pyStartsWith t fenceMarker then pySliceFrom t 3
    else t
  if pyEndsWith t1 fenceMarker then pySliceUpToNeg t1 3 else t1

/-- Lines 81-100: the text submitted to `json.loads` — the response text
stripped, fence markers removed, stripped again, and then replaced by
the first regex-extracted JSON-object-shaped substring when the regex
search (`search` oracle) finds one. -/
def processedText (search : String → Option String) (s : String) : String :=
  let t := pyStrip (stripFences (pyStrip s))
  match search t with
  | some m => m
  | none => t

/-- Line 111: `response_text[:300] if len(response_text) > 300 else response_text`. -/
def pyTruncate300 (t : String) : String :=
  if 300 < t.toList.length then pySliceTo t 300 else t

/-- The parse-failure fallback dictionary, lines 109-117: built when
`json.loads` raises `JSONDecodeError`. -/
def parseFallbackDict (fullName t : String) : PyDict :=
  [("name", PyVal.str fullName),
   ("description", PyVal.str (pyTruncate300 t)),
   ("symptoms", PyVal.list []),
   ("cure", PyVal.str "Please consult a dermatologist for proper treatment."),
   ("precautions", PyVal.list []),
   ("severity", PyVal.str "moderate"),
   ("when_to_see_doctor", PyVal.str "Consult a healthcare professional for proper diagnosis and treatment.")]

/-- The final field-filling return, lines 123-131: one `.get` with a
default per required field. -/
def finalSeven (entries : PyDict) (fullName : String) : PyDict :=
  [("name", pyGet entries "name" (PyVal.str fullName)),
   ("description", pyGet entries "description" (PyVal.str "")),
   ("symptoms", pyGet entries "symptoms" (PyVal.list [])),
   ("cure", pyGet entries "cure" (PyVal.str "")),
   ("precautions", pyGet entries "precautions" (PyVal.list [])),
   ("severity", pyGet entries "severity" (PyVal.str "moderate")),
   ("when_to_see_doctor", pyGet entries "when_to_see_doctor" (PyVal.str "Consult a healthcare professional."))]

/-- The transport-failure fallback record, lines 136-144: returned by
the outer exception handler, keyed by the original (un-expanded)
disease name. -/
def transportFallback (diseaseName : String) : PyDict :=
  [("name", PyVal.str diseaseName),
   ("description", PyVal.str "Information temporarily unavailable. Please consult a dermatologist."),
   ("symptoms", PyVal.list []),
   ("cure", PyVal.str "Please consult a healthcare professional for proper diagnosis and treatment."),
   ("precautions", PyVal.list [PyVal.str "Avoid excessive sun exposure", PyVal.str "Use sunscreen", PyVal.str "Keep skin moisturized"]),
   ("severity", PyVal.str "unknown"),
   ("when_to_see_doctor", PyVal.str "Consult a dermatologist for proper diagnosis and treatment.")]

/-- Lines 32-131 of `get_disease_info` — everything inside the outer
`try`.  `gen` is the external generator applied to the prompt built for
the expanded disease name; `loads` is `json.loads` (`none` models
`JSONDecodeError`); `search` is the regex JSON-object extraction.  An
`Except.error` is a Python exception escaping the outer try body: the
re-raised generator error (lines 118-120), or the `AttributeError` from
calling `.get` on a non-dictionary `json.loads` result (lines 123-131). -/
def getDiseaseInfoCore (gen : String → GenOutcome) (loads : String → Option PyVal)
    (search : String → Option String) (diseaseName : String) : Except Unit PyDict :=
  let fullName := fullNameOf diseaseName
  match gen fullName with
  | GenOutcome.raise => Except.error ()
  | GenOutcome.text s =>
    let t := processedText search s
    let diseaseInfoVal : PyVal :=
      match loads t with
      | some v => v
      | none => PyVal.dict (parseFallbackDict fullName t)
    match diseaseInfoVal with
    | PyVal.dict entries => Except.ok (finalSeven entries fullName)
    | _ => Except.error ()

/-- `DiseaseInfoService.get_disease_info`: the core wrapped in the outer
exception handler (lines 133-144), which degrades every escaping
exception to the transport-failure fallback record. -/
def get_disease_info (gen : String → GenOutcome) (loads : String → Option PyVal)
    (search : String → Option String) (diseaseName : String) : PyDict :=
  match getDiseaseInfoCore gen loads search diseaseName with
  | Except.ok d => d
  | Except.error _ => transportFallback diseaseName

/-- The seven required DiseaseRecord field names, in the order the
service constructs them. -/
def sevenKeys : List String :=
  ["name", "description", "symptoms", "cure", "precautions", "severity", "when_to_see_doctor"]

theorem keysOf_finalSeven (entries : PyDict) (fullName : String) :
    keysOf (finalSeven entries fullName) = sevenKeys := rfl

theorem keysOf_transportFallback (diseaseName : String) :
    keysOf (transportFallback diseaseName) = sevenKeys := rfl

theorem keysOf_get_disease_info (gen : String → GenOutcome) (loads : String → Option PyVal)
    (search : String → Option String) (diseaseName : String) :
    keysOf (get_disease_info gen loads search diseaseName) = sevenKeys := by
  unfold get_disease_info getDiseaseInfoCore
  cases hG : gen (fullNameOf diseaseName) with
  | raise => simp only [hG]; rfl
  | text s =>
    simp only [hG]
    cases hL : loads (processedText search s) with
    | none => simp only [hL]; rfl
    | some v =>
      simp only [hL]
      cases v <;> rfl

theorem dictFind_eq_none_of_not_mem_keys {α : Type} (m : List (String × α)) (k : String)
    (h : k ∉ keysOf m) : dictFind m k = none := by
  induction m with
  | nil => rfl
  | cons e rest ih =>
    obtain ⟨k1, v⟩ := e
    have h1 : ¬ k = k1 ∧ k ∉ keysOf rest := by simpa [keysOf] using h
    rw [show dictFind ((k1, v) :: rest) k = if k1 = k then some v else dictFind rest k from rfl]
    rw [if_neg (fun hk => h1.1 hk.symm)]
    exact ih h1.2

/-- The `CONFIDENCE_THRESHOLD = 0.70` constant of `scan.py`. -/
def CONFIDENCE_THRESHOLD : ℚ := 7/10

/-- The inline `0.20` margin literal of `scan.py` lines 87 and 216. -/
def MARGIN_THRESHOLD : ℚ := 2/10

/-- The descending-by-probability order used by
`sorted(all_predictions.items(), key=lambda x: x[1], reverse=True)`:
`a` comes before `b` when `a`'s probability is at least `b`'s, ties
keeping original (category-enumeration) order. -/
def predOrder (a b : String × ℚ) : Prop := b.2 ≤ a.2

instance : DecidableRel predOrder := fun a b => inferInstanceAs (Decidable (b.2 ≤ a.2))

/-- `sorted_predictions`: Python's stable descending sort of the
distribution entries, realised by a stable insertion sort. -/
def sortedPreds (d : List (String × ℚ)) : List (String × ℚ) :=
  List.insertionSort predOrder d

/-- `sorted_predictions[0][1] if sorted_predictions else 0` (line 83). -/
def topProbOf (d : List (String × ℚ)) : ℚ :=
  match sortedPreds d with
  | [] => 0
  | x :: _ => x.2

/-- `sorted_predictions[1][1] if len(sorted_predictions) > 1 else 0` (line 84). -/
def secondProbOf (d : List (String × ℚ)) : ℚ :=
  match sortedPreds d with
  | _ :: y :: _ => y.2
  | _ => 0

/-- One entry of the `alternate_diseases` list. -/
structure AltDisease where
  name : String
  probability : ℚ
  disease_info : PyDict

/-- The JSON body returned by the two scan endpoints. -/
structure ScanResponse where
  success : Bool
  disease : String
  confidence : ℚ
  is_low_confidence : Bool
  confidence_warning : Option String
  disease_info : PyDict
  all_predictions : List (String × ℚ)
  alternate_diseases : List AltDisease
  model_version : String

/-- The `confidence_warning` text set in the ambiguous branch
(`scan.py` lines 135-139). -/
def confidenceWarningText : String :=
  "The image quality or clarity may be affecting the analysis. Based on the model predictions, this could be one of several conditions. Please upload a clearer, well-lit image of the affected area for more accurate results."

/-- The static `generic_disease_info` record substituted for the
primary record in the ambiguous branch (`scan.py` lines 120-133). -/
def genericDiseaseInfo : PyDict :=
  [("name", PyVal.str "Multiple Possibilities"),
   ("description", PyVal.str "The analysis indicates multiple possible conditions. The image quality or clarity may be affecting the accuracy of the diagnosis."),
   ("symptoms", PyVal.list []),
   ("cure", PyVal.str "Please consult a dermatologist for proper diagnosis. Upload a clearer, well-lit image for better analysis results."),
   ("precautions", PyVal.list [PyVal.str "Monitor the affected area for any changes", PyVal.str "Avoid scratching or irritating the area", PyVal.str "Keep the area clean and dry", PyVal.str "Consult a healthcare professional for proper diagnosis"]),
   ("severity", PyVal.str "unknown"),
   ("when_to_see_doctor", PyVal.str "It is recommended to consult a dermatologist, especially if the condition persists, worsens, or if you have concerns about skin cancer (BCC, SCC, or Melanoma).")]

/-- The inline fallback record used when fetching info for an alternate
candidate raises (`scan.py` lines 101-109). -/
def altFetchFallback (diseaseCandidate : String) : PyDict :=
  [("name", PyVal.str diseaseCandidate),
   ("description", PyVal.str "Information temporarily unavailable. Please consult a dermatologist."),
   ("symptoms", PyVal.list []),
   ("cure", PyVal.str "Consult a healthcare professional for accurate treatment."),
   ("precautions", PyVal.list []),
   ("severity", PyVal.str "unknown"),
   ("when_to_see_doctor", PyVal.str "Consult a dermatologist for proper diagnosis.")]

/-- The record stored for one candidate by the loop at `scan.py` lines
93-109: the already-fetched primary record when the candidate is the
predicted disease, otherwise the fetched record, degraded to the inline
fallback if the fetch raises. -/
def infoFor (fetch : String → Except Unit PyDict) (diseaseName : String)
    (diseaseInfo : PyDict) (l : String) : PyDict :=
  if l = diseaseName then diseaseInfo
  else
    match fetch l with
    | Except.ok info => info
    | Except.error _ => altFetchFallback l

/-- One iteration of the `candidate_infos` loop: writing
`candidate_infos[disease_candidate]` is consing the new binding in
front (first-match lookup sees the latest write). -/
def candStep (fetch : String → Except Unit PyDict) (diseaseName : String)
    (diseaseInfo : PyDict) (m : List (String × PyDict)) (c : String × ℚ) :
    List (String × PyDict) :=
  (c.1, infoFor fetch diseaseName diseaseInfo c.1) :: m

/-- Line 87 (and its duplicate, line 216): `is_low_confidence =
confidence < CONFIDENCE_THRESHOLD or (top_prediction -
second_prediction) < 0.20`. -/
def isLowConfidenceOf (confidence : ℚ) (allPredictions : List (String × ℚ)) : Bool :=
  decide (confidence < CONFIDENCE_THRESHOLD) ||
    decide (topProbOf allPredictions - secondProbOf allPredictions < MARGIN_THRESHOLD)

/-- Line 91: `top_candidates = sorted_predictions[:3]`. -/
def topCandidatesOf (allPredictions : List (String × ℚ)) : List (String × ℚ) :=
  (sortedPreds allPredictions).take 3

/-- Lines 92-109: the `candidate_infos` dictionary after the loop. -/
def candidateInfosOf (fetch : String → Except Unit PyDict) (diseaseName : String)
    (diseaseInfo : PyDict) (allPredictions : List (String × ℚ)) :
    List (String × PyDict) :=
  (topCandidatesOf allPredictions).foldl (candStep fetch diseaseName diseaseInfo) []

/-- Lines 111-118: the `alternate_diseases` list, one entry per top
candidate in sorted order, each carrying
`candidate_infos.get(disease_candidate, {})`. -/
def alternatesOf (fetch : String → Except Unit PyDict) (diseaseName : String)
    (diseaseInfo : PyDict) (allPredictions : List (String × ℚ)) : List AltDisease :=
  (topCandidatesOf allPredictions).map fun c =>
    AltDisease.mk c.1 c.2
      ((dictFind (candidateInfosOf fetch diseaseName diseaseInfo allPredictions) c.1).getD [])

/-- `scan.py` lines 74-156 after the primary record has been fetched:
the stable descending sort, the low-confidence decision, and the two
response shapes (ambiguous branch with candidates, generic primary
record and warning; unambiguous branch with the fetched record, no
warning and no candidates), guarded by
`if is_low_confidence and sorted_predictions:`. -/
def buildScanResponse (fetch : String → Except Unit PyDict) (diseaseName : String)
    (confidence : ℚ) (allPredictions : List (String × ℚ)) (diseaseInfo : PyDict) :
    ScanResponse :=
  if isLowConfidenceOf confidence allPredictions = true ∧ sortedPreds allPredictions ≠ [] then
    ScanResponse.mk true diseaseName confidence
      (isLowConfidenceOf confidence allPredictions)
      (some confidenceWarningText) genericDiseaseInfo allPredictions
      (alternatesOf fetch diseaseName diseaseInfo allPredictions) "1.0.0"
  else
    ScanResponse.mk true diseaseName confidence
      (isLowConfidenceOf confidence allPredictions)
      none diseaseInfo allPredictions [] "1.0.0"

/-- The `/analyze` endpoint, from the model prediction on
(`scan.py` lines 66-156): fetch the primary record (a raised fetch
escapes to the outer handler, giving an error response), then build the
response.  The dead first assignment of `is_low_confidence` at line 75
is kept as an unused binding. -/
def analyze_scan (fetch : String → Except Unit PyDict) (diseaseName : String)
    (confidence : ℚ) (allPredictions : List (String × ℚ)) :
    Except Unit ScanResponse :=
  match fetch diseaseName with
  | Except.error e => Except.error e
  | Except.ok diseaseInfo =>
    let _deadIsLowConfidence : Bool := decide (confidence < CONFIDENCE_THRESHOLD)
    Except.ok (buildScanResponse fetch diseaseName confidence allPredictions diseaseInfo)

/-- `scan.py` lines 205-282: the duplicated response construction of
the base64 endpoint (textually identical logic, without the dead first
assignment). -/
def buildScanResponseBase64 (fetch : String → Except Unit PyDict) (diseaseName : String)
    (confidence : ℚ) (allPredictions : List (String × ℚ)) (diseaseInfo : PyDict) :
    ScanResponse :=
  let sortedPredictions := sortedPreds allPredictions
  let topPrediction := topProbOf allPredictions
  let secondPrediction := secondProbOf allPredictions
  let isLowConfidence : Bool :=
    decide (confidence < CONFIDENCE_THRESHOLD) ||
      decide (topPrediction - secondPrediction < MARGIN_THRESHOLD)
  if isLowConfidence = true ∧ sortedPredictions ≠ [] then
    let topCandidates := sortedPredictions.take 3
    let candidateInfos := topCandidates.foldl (candStep fetch diseaseName diseaseInfo) []
    let alternates := topCandidates.map fun c =>
      AltDisease.mk c.1 c.2 ((dictFind candidateInfos c.1).getD [])
    ScanResponse.mk true diseaseName confidence isLowConfidence
      (some confidenceWarningText) genericDiseaseInfo allPredictions alternates "1.0.0"
  else
    ScanResponse.mk true diseaseName confidence isLowConfidence
      none diseaseInfo allPredictions [] "1.0.0"

/-- The `/analyze-base64` endpoint, from the model prediction on
(`scan.py` lines 199-282). -/
def analyze_scan_base64 (fetch : String → Except Unit PyDict) (diseaseName : String)
    (confidence : ℚ) (allPredictions : List (String × ℚ)) :
    Except Unit ScanResponse :=
  match fetch diseaseName with
  | Except.error e => Except.error e
  | Except.ok diseaseInfo =>
    Except.ok (buildScanResponseBase64 fetch diseaseName confidence allPredictions diseaseInfo)

/-- Modelled from the spec, section 4.1: the canonical ambiguity rule
`is_ambiguous := top.probability < confidence_threshold OR
(top.probability - second.probability) < margin_threshold`, stated on
the sorted distribution with `top`/`second` defaulting to 0.  Written
from the specification's words, for comparison with the code's
decision. -/
def canonicalIsAmbiguous (d : List (String × ℚ)) : Bool :=
  decide (topProbOf d < CONFIDENCE_THRESHOLD) ||
    decide (topProbOf d - secondProbOf d < MARGIN_THRESHOLD)

theorem length_sortedPreds (d : List (String × ℚ)) : (sortedPreds d).length = d.length :=
  List.length_insertionSort predOrder d

theorem sortedPreds_eq_nil_iff (d : List (String × ℚ)) : sortedPreds d = [] ↔ d = [] := by
  constructor
  · intro h
    have hl := length_sortedPreds d
    rw [h] at hl
    exact List.length_eq_zero.mp hl.symm
  · intro h
    subst h
    rfl

theorem keysOf_cons {α : Type} (e : String × α) (m : List (String × α)) :
    keysOf (e :: m) = e.1 :: keysOf m := rfl

theorem dictFind_foldl_candStep (fetch : String → Except Unit PyDict) (dn : String)
    (di : PyDict) (cs : List (String × ℚ)) (init : List (String × PyDict)) (k : String) :
    dictFind (cs.foldl (candStep fetch dn di) init) k =
      if k ∈ keysOf cs then some (infoFor fetch dn di k) else dictFind init k := by
  induction cs generalizing init with
  | nil => simp [keysOf]
  | cons c rest ih =>
    rw [List.foldl_cons, ih]
    have hstep : dictFind (candStep fetch dn di init c) k
        = if c.1 = k then some (infoFor fetch dn di c.1) else dictFind init k := rfl
    by_cases hr : k ∈ keysOf rest
    · rw [if_pos hr, if_pos (by rw [keysOf_cons]; exact List.mem_cons_of_mem _ hr)]
    · rw [if_neg hr, hstep]
      by_cases hc : c.1 = k
      · rw [if_pos hc, if_pos (by rw [keysOf_cons, ← hc]; exact List.mem_cons_self _ _), hc]
      · have hnotin : k ∉ keysOf (c :: rest) := by
          rw [keysOf_cons]
          intro hmem
          rcases List.mem_cons.mp hmem with h1 | h2
          · exact hc h1.symm
          · exact hr h2
        rw [if_neg hc, if_neg hnotin]

theorem alternatesOf_eq (fetch : String → Except Unit PyDict) (dn : String)
    (di : PyDict) (d : List (String × ℚ)) :
    alternatesOf fetch dn di d =
      (topCandidatesOf d).map fun c => AltDisease.mk c.1 c.2 (infoFor fetch dn di c.1) := by
  unfold alternatesOf candidateInfosOf
  apply List.map_congr_left
  intro c hc
  rw [dictFind_foldl_candStep]
  have : c.1 ∈ keysOf (topCandidatesOf d) := List.mem_map_of_mem Prod.fst hc
  simp [this]

theorem dictFind_isSome_of_mem_keys {α : Type} (m : List (String × α)) (k : String)
    (h : k ∈ keysOf m) : (dictFind m k).isSome = true := by
  induction m with
  | nil => simp [keysOf] at h
  | cons e rest ih =>
    obtain ⟨k1, v⟩ := e
    rw [show dictFind ((k1, v) :: rest) k = if k1 = k then some v else dictFind rest k from rfl]
    by_cases hk : k1 = k
    · rw [if_pos hk]
      rfl
    · rw [if_neg hk]
      apply ih
      rcases List.mem_cons.mp (by simpa [keysOf_cons] using h) with h1 | h2
      · exact absurd h1.symm hk
      · exact h2

theorem get_disease_info_of_raise (gen : String → GenOutcome) (loads : String → Option PyVal)
    (search : String → Option String) (diseaseName : String)
    (h : gen (fullNameOf diseaseName) = GenOutcome.raise) :
    get_disease_info gen loads search diseaseName = transportFallback diseaseName := by
  unfold get_disease_info getDiseaseInfoCore
  simp only [h]

theorem get_disease_info_of_parse_failure (gen : String → GenOutcome)
    (loads : String → Option PyVal) (search : String → Option String) (diseaseName s : String)
    (hgen : gen (fullNameOf diseaseName) = GenOutcome.text s)
    (hloads : loads (processedText search s) = none) :
    get_disease_info gen loads search diseaseName =
      finalSeven (parseFallbackDict (fullNameOf diseaseName) (processedText search s))
        (fullNameOf diseaseName) := by
  unfold get_disease_info getDiseaseInfoCore
  simp only [hgen, hloads]

/-- C2: `get_disease_info` is total (it is a plain function into
`PyDict`, never an exception): for every generator, parser and regex
outcome the returned record carries exactly the seven required field
names, each field present, and when the external knowledge call fails
(the generator raises) the result is the fixed transport fallback
record. -/
theorem get_disease_info_total_and_seven_fields (gen : String → GenOutcome)
    (loads : String → Option PyVal) (search : String → Option String) (diseaseName : String) :
    keysOf (get_disease_info gen loads search diseaseName) = sevenKeys ∧
    (∀ k, k ∈ sevenKeys →
      (dictFind (get_disease_info gen loads search diseaseName) k).isSome = true) ∧
    (gen (fullNameOf diseaseName) = GenOutcome.raise →
      get_disease_info gen loads search diseaseName = transportFallback diseaseName) := by
  refine ⟨keysOf_get_disease_info gen loads search diseaseName, ?_, ?_⟩
  · intro k hk
    apply dictFind_isSome_of_mem_keys
    rw [keysOf_get_disease_info]
    exact hk
  · intro h
    exact get_disease_info_of_raise gen loads search diseaseName h

/-- Witness for C2 at a concrete failing generator: the record for
"BCC" has the seven keys, the "severity" field is present, and the
result is the transport fallback. -/
theorem get_disease_info_total_and_seven_fields_witness :
    keysOf (get_disease_info (fun _ => GenOutcome.raise) (fun _ => none) (fun _ => none) "BCC")
        = sevenKeys ∧
    (dictFind (get_disease_info (fun _ => GenOutcome.raise) (fun _ => none) (fun _ => none) "BCC")
        "severity").isSome = true ∧
    get_disease_info (fun _ => GenOutcome.raise) (fun _ => none) (fun _ => none) "BCC"
        = transportFallback "BCC" :=
  ⟨(get_disease_info_total_and_seven_fields (fun _ => GenOutcome.raise) (fun _ => none)
      (fun _ => none) "BCC").1,
   (get_disease_info_total_and_seven_fields (fun _ => GenOutcome.raise) (fun _ => none)
      (fun _ => none) "BCC").2.1 "severity" (by decide),
   (get_disease_info_total_and_seven_fields (fun _ => GenOutcome.raise) (fun _ => none)
      (fun _ => none) "BCC").2.2 rfl⟩

/-- C7: when the generated text cannot be interpreted as JSON
(`json.loads` fails on the text submitted to it), the returned record
has a description that is a prefix of that text of length at most 300
characters, and all remaining fields are the generic defaults (empty
lists, severity "moderate", generic consult-a-professional
sentences). -/
theorem get_disease_info_parse_failure_truncated_prefix (gen : String → GenOutcome)
    (loads : String → Option PyVal) (search : String → Option String) (diseaseName s : String)
    (hgen : gen (fullNameOf diseaseName) = GenOutcome.text s)
    (hloads : loads (processedText search s) = none) :
    get_disease_info gen loads search diseaseName =
      [("name", PyVal.str (fullNameOf diseaseName)),
       ("description", PyVal.str (pyTruncate300 (processedText search s))),
       ("symptoms", PyVal.list []),
       ("cure", PyVal.str "Please consult a dermatologist for proper treatment."),
       ("precautions", PyVal.list []),
       ("severity", PyVal.str "moderate"),
       ("when_to_see_doctor", PyVal.str "Consult a healthcare professional for proper diagnosis and treatment.")] ∧
    (pyTruncate300 (processedText search s)).toList.length ≤ 300 ∧
    (∃ rest, (processedText search s).toList
        = (pyTruncate300 (processedText search s)).toList ++ rest) := by
  refine ⟨?_, ?_, ?_⟩
  · rw [get_disease_info_of_parse_failure gen loads search diseaseName s hgen hloads]
    rfl
  · unfold pyTruncate300
    by_cases h : 300 < (processedText search s).toList.length
    · rw [if_pos h]
      simp only [pySliceTo]
      exact List.length_take_le 300 (processedText search s).toList
    · rw [if_neg h]
      omega
  · unfold pyTruncate300
    by_cases h : 300 < (processedText search s).toList.length
    · rw [if_pos h]
      exact ⟨(processedText search s).toList.drop 300,
        (List.take_append_drop 300 (processedText search s).toList).symm⟩
    · rw [if_neg h]
      exact ⟨[], (List.append_nil _).symm⟩

/-- Witness for C7 at a concrete malformed generation: the generator
returns "this is not json" (no fences, no JSON object found, parse
fails), and the record degrades as claimed. -/
theorem get_disease_info_parse_failure_truncated_prefix_witness :
    get_disease_info (fun _ => GenOutcome.text "this is not json") (fun _ => none)
        (fun _ => none) "Acne" =
      [("name", PyVal.str (fullNameOf "Acne")),
       ("description", PyVal.str (pyTruncate300 (processedText (fun _ => none) "this is not json"))),
       ("symptoms", PyVal.list []),
       ("cure", PyVal.str "Please consult a dermatologist for proper treatment."),
       ("precautions", PyVal.list []),
       ("severity", PyVal.str "moderate"),
       ("when_to_see_doctor", PyVal.str "Consult a healthcare professional for proper diagnosis and treatment.")] ∧
    (pyTruncate300 (processedText (fun _ => none) "this is not json")).toList.length ≤ 300 ∧
    (∃ rest, (processedText (fun _ => none) "this is not json").toList
        = (pyTruncate300 (processedText (fun _ => none) "this is not json")).toList ++ rest) :=
  get_disease_info_parse_failure_truncated_prefix (fun _ => GenOutcome.text "this is not json")
    (fun _ => none) (fun _ => none) "Acne" "this is not json" rfl rfl

/-- C8: the transport-failure fallback and the malformed-text parse
fallback have the same shape (same key list) but distinct content: the
transport fallback carries severity "unknown" and three generic
precautions, the parse fallback severity "moderate" and no precautions,
so the two failure modes are distinguishable from the returned
record. -/
theorem transport_and_parse_fallbacks_distinguishable (gen1 gen2 : String → GenOutcome)
    (loads1 loads2 : String → Option PyVal) (search1 search2 : String → Option String)
    (diseaseName s : String)
    (h1 : gen1 (fullNameOf diseaseName) = GenOutcome.raise)
    (h2gen : gen2 (fullNameOf diseaseName) = GenOutcome.text s)
    (h2loads : loads2 (processedText search2 s) = none) :
    keysOf (get_disease_info gen1 loads1 search1 diseaseName)
        = keysOf (get_disease_info gen2 loads2 search2 diseaseName) ∧
    dictFind (get_disease_info gen1 loads1 search1 diseaseName) "severity"
        = some (PyVal.str "unknown") ∧
    dictFind (get_disease_info gen2 loads2 search2 diseaseName) "severity"
        = some (PyVal.str "moderate") ∧
    dictFind (get_disease_info gen1 loads1 search1 diseaseName) "precautions"
        = some (PyVal.list [PyVal.str "Avoid excessive sun exposure", PyVal.str "Use sunscreen",
            PyVal.str "Keep skin moisturized"]) ∧
    dictFind (get_disease_info gen2 loads2 search2 diseaseName) "precautions"
        = some (PyVal.list []) ∧
    dictFind (get_disease_info gen1 loads1 search1 diseaseName) "severity"
        ≠ dictFind (get_disease_info gen2 loads2 search2 diseaseName) "severity" := by
  rw [get_disease_info_of_raise gen1 loads1 search1 diseaseName h1,
    get_disease_info_of_parse_failure gen2 loads2 search2 diseaseName s h2gen h2loads]
  refine ⟨rfl, rfl, rfl, rfl, rfl, ?_⟩
  intro hEq
  have h2 : PyVal.str "unknown" = PyVal.str "moderate" := by
    have h3 : dictFind (transportFallback diseaseName) "severity" = some (PyVal.str "unknown") := rfl
    have h4 : dictFind (finalSeven (parseFallbackDict (fullNameOf diseaseName)
        (processedText search2 s)) (fullNameOf diseaseName)) "severity"
        = some (PyVal.str "moderate") := rfl
    rw [h3, h4] at hEq
    exact Option.some.inj hEq
  have h5 : "unknown" = "moderate" := PyVal.str.inj h2
  exact absurd h5 (by decide)

/-- Witness for C8 at concrete oracles for the two failure modes. -/
theorem transport_and_parse_fallbacks_distinguishable_witness :
    keysOf (get_disease_info (fun _ => GenOutcome.raise) (fun _ => none) (fun _ => none) "Eczema")
        = keysOf (get_disease_info (fun _ => GenOutcome.text "garbled") (fun _ => none)
            (fun _ => none) "Eczema") ∧
    dictFind (get_disease_info (fun _ => GenOutcome.raise) (fun _ => none) (fun _ => none)
        "Eczema") "severity" = some (PyVal.str "unknown") ∧
    dictFind (get_disease_info (fun _ => GenOutcome.text "garbled") (fun _ => none)
        (fun _ => none) "Eczema") "severity" = some (PyVal.str "moderate") ∧
    dictFind (get_disease_info (fun _ => GenOutcome.raise) (fun _ => none) (fun _ => none)
        "Eczema") "precautions"
        = some (PyVal.list [PyVal.str "Avoid excessive sun exposure", PyVal.str "Use sunscreen",
            PyVal.str "Keep skin moisturized"]) ∧
    dictFind (get_disease_info (fun _ => GenOutcome.text "garbled") (fun _ => none)
        (fun _ => none) "Eczema") "precautions" = some (PyVal.list []) ∧
    dictFind (get_disease_info (fun _ => GenOutcome.raise) (fun _ => none) (fun _ => none)
        "Eczema") "severity"
        ≠ dictFind (get_disease_info (fun _ => GenOutcome.text "garbled") (fun _ => none)
            (fun _ => none) "Eczema") "severity" :=
  transport_and_parse_fallbacks_distinguishable (fun _ => GenOutcome.raise)
    (fun _ => GenOutcome.text "garbled") (fun _ => none) (fun _ => none) (fun _ => none)
    (fun _ => none) "Eczema" "garbled" rfl rfl rfl

/-- C10: in every outcome the record returned by `get_disease_info`
has exactly the seven required keys, and the lookup of any key outside
the seven (such as an extra field in the generator's JSON payload)
returns nothing — extra fields are discarded. -/
theorem get_disease_info_exactly_seven_keys (gen : String → GenOutcome)
    (loads : String → Option PyVal) (search : String → Option String) (diseaseName k : String)
    (hk : k ∉ sevenKeys) :
    keysOf (get_disease_info gen loads search diseaseName) = sevenKeys ∧
    dictFind (get_disease_info gen loads search diseaseName) k = none := by
  refine ⟨keysOf_get_disease_info gen loads search diseaseName, ?_⟩
  apply dictFind_eq_none_of_not_mem_keys
  rw [keysOf_get_disease_info]
  exact hk

/-- Witness for C10: a payload with an extra field "contagious" still
yields exactly the seven keys, and the extra field is gone. -/
theorem get_disease_info_exactly_seven_keys_witness :
    keysOf (get_disease_info (fun _ => GenOutcome.text "x")
        (fun _ => some (PyVal.dict [("name", PyVal.str "Acne"), ("contagious", PyVal.str "no")]))
        (fun _ => none) "Acne") = sevenKeys ∧
    dictFind (get_disease_info (fun _ => GenOutcome.text "x")
        (fun _ => some (PyVal.dict [("name", PyVal.str "Acne"), ("contagious", PyVal.str "no")]))
        (fun _ => none) "Acne") "contagious" = none :=
  get_disease_info_exactly_seven_keys (fun _ => GenOutcome.text "x")
    (fun _ => some (PyVal.dict [("name", PyVal.str "Acne"), ("contagious", PyVal.str "no")]))
    (fun _ => none) "Acne" "contagious" (by decide)

theorem analyze_scan_ok_iff (fetch : String → Except Unit PyDict) (n : String) (conf : ℚ)
    (d : List (String × ℚ)) (resp : ScanResponse) :
    analyze_scan fetch n conf d = Except.ok resp ↔
      ∃ i, fetch n = Except.ok i ∧ resp = buildScanResponse fetch n conf d i := by
  unfold analyze_scan
  cases h : fetch n <;> simp [h, eq_comm]

theorem buildScanResponse_is_low (fetch : String → Except Unit PyDict) (n : String) (conf : ℚ)
    (d : List (String × ℚ)) (i : PyDict) :
    (buildScanResponse fetch n conf d i).is_low_confidence = isLowConfidenceOf conf d := by
  unfold buildScanResponse
  split <;> rfl

theorem isLowConfidenceOf_nil (conf : ℚ) : isLowConfidenceOf conf [] = true := by
  have h0 : topProbOf [] - secondProbOf [] < MARGIN_THRESHOLD := by
    show (0:ℚ) - 0 < MARGIN_THRESHOLD
    norm_num [MARGIN_THRESHOLD]
  unfold isLowConfidenceOf
  rw [decide_eq_true h0, Bool.or_true]

theorem buildScanResponse_of_nil (fetch : String → Except Unit PyDict) (n : String) (conf : ℚ)
    (i : PyDict) :
    buildScanResponse fetch n conf [] i =
      ScanResponse.mk true n conf true none i [] [] "1.0.0" := by
  unfold buildScanResponse
  rw [if_neg (fun h => h.2 rfl), isLowConfidenceOf_nil]

theorem buildScanResponse_of_ambiguous (fetch : String → Except Unit PyDict) (n : String)
    (conf : ℚ) (d : List (String × ℚ)) (i : PyDict)
    (h : isLowConfidenceOf conf d = true) (hne : d ≠ []) :
    buildScanResponse fetch n conf d i =
      ScanResponse.mk true n conf true (some confidenceWarningText) genericDiseaseInfo d
        (alternatesOf fetch n i d) "1.0.0" := by
  unfold buildScanResponse
  rw [if_pos ⟨h, fun hc => hne ((sortedPreds_eq_nil_iff d).mp hc)⟩, h]

theorem buildScanResponse_of_unambiguous (fetch : String → Except Unit PyDict) (n : String)
    (conf : ℚ) (d : List (String × ℚ)) (i : PyDict)
    (h : isLowConfidenceOf conf d = false) :
    buildScanResponse fetch n conf d i =
      ScanResponse.mk true n conf false none i d [] "1.0.0" := by
  unfold buildScanResponse
  rw [if_neg (fun hc => by rw [h] at hc; exact absurd hc.1 (by decide)), h]

/-- C1: when the confidence reported by the classifier is the top
sorted probability (which the classifier guarantees: it returns the
argmax probability as the confidence), the low-confidence decision of
`/analyze` is exactly `top < 0.70 OR top - second < 0.20`; and whenever
the top two probabilities are within the 0.20 margin the decision is
low-confidence regardless of the confidence value. -/
theorem analyze_scan_ambiguity_rule (fetch : String → Except Unit PyDict) (n : String)
    (conf : ℚ) (d : List (String × ℚ)) (resp : ScanResponse)
    (hr : analyze_scan fetch n conf d = Except.ok resp) :
    (conf = topProbOf d →
      resp.is_low_confidence =
        (decide (topProbOf d < CONFIDENCE_THRESHOLD) ||
          decide (topProbOf d - secondProbOf d < MARGIN_THRESHOLD))) ∧
    (topProbOf d - secondProbOf d < MARGIN_THRESHOLD → resp.is_low_confidence = true) := by
  obtain ⟨i, hf, hresp⟩ := (analyze_scan_ok_iff fetch n conf d resp).mp hr
  subst hresp
  rw [buildScanResponse_is_low]
  constructor
  · intro hc
    unfold isLowConfidenceOf
    rw [hc]
  · intro hm
    unfold isLowConfidenceOf
    rw [decide_eq_true hm, Bool.or_true]

/-- Witness for C1 at the spec's own scenario: Melanoma 0.55 vs
SCC 0.40 (margin 0.15 < 0.20) is low-confidence. -/
theorem analyze_scan_ambiguity_rule_witness :
    topProbOf [("Melanoma", (11:ℚ)/20), ("SCC", 2/5)]
        - secondProbOf [("Melanoma", (11:ℚ)/20), ("SCC", 2/5)] < MARGIN_THRESHOLD ∧
    (buildScanResponse (fun _ => Except.ok []) "Melanoma" (11/20)
        [("Melanoma", (11:ℚ)/20), ("SCC", 2/5)] []).is_low_confidence = true := by
  have hm : topProbOf [("Melanoma", (11:ℚ)/20), ("SCC", 2/5)]
      - secondProbOf [("Melanoma", (11:ℚ)/20), ("SCC", 2/5)] < MARGIN_THRESHOLD := by
    norm_num [topProbOf, secondProbOf, sortedPreds, List.insertionSort, List.orderedInsert,
      predOrder, MARGIN_THRESHOLD]
  exact ⟨hm, (analyze_scan_ambiguity_rule (fun _ => Except.ok []) "Melanoma" (11/20)
    [("Melanoma", (11:ℚ)/20), ("SCC", 2/5)]
    (buildScanResponse (fun _ => Except.ok []) "Melanoma" (11/20)
      [("Melanoma", (11:ℚ)/20), ("SCC", 2/5)] []) rfl).2 hm⟩

/-- C5 counterexample: on the empty distribution the endpoint does not
signal any error — it returns a normal success response (with the
fetched primary record, no warning, no candidates), so no
InvalidInputError is reported; indeed no such error exists in the
code. -/
theorem empty_distribution_counterexample :
    analyze_scan (fun _ => Except.ok []) "Acne" (9/10) [] =
      Except.ok (ScanResponse.mk true "Acne" (9/10) true none [] [] [] "1.0.0") := by
  have h : analyze_scan (fun _ => Except.ok []) "Acne" (9/10) [] =
      Except.ok (buildScanResponse (fun _ => Except.ok []) "Acne" (9/10) [] []) := rfl
  rw [h, buildScanResponse_of_nil]

/-- C5 amended: for an empty category distribution the engine does not
signal a distinct error; whenever the primary fetch succeeds it
produces a normal analysis result that reports the model's disease as
primary, is marked low-confidence (both defaults are 0, so the margin
disjunct fires), and has no warning and no candidates. -/
theorem empty_distribution_returns_result (fetch : String → Except Unit PyDict) (n : String)
    (conf : ℚ) (i : PyDict) (hf : fetch n = Except.ok i) :
    analyze_scan fetch n conf [] =
      Except.ok (ScanResponse.mk true n conf true none i [] [] "1.0.0") := by
  unfold analyze_scan
  rw [hf]
  simp only []
  rw [buildScanResponse_of_nil]

/-- Witness for C5's amended statement at a concrete fetch. -/
theorem empty_distribution_returns_result_witness :
    analyze_scan (fun _ => Except.ok (transportFallback "Eczema")) "Eczema" (1/2) [] =
      Except.ok (ScanResponse.mk true "Eczema" (1/2) true none (transportFallback "Eczema")
        [] [] "1.0.0") :=
  empty_distribution_returns_result (fun _ => Except.ok (transportFallback "Eczema")) "Eczema"
    (1/2) (transportFallback "Eczema") rfl

/-- C6: for a single-category distribution with the classifier's
coupling (confidence = that category's probability), the decision
reduces to the confidence threshold alone: the second probability
defaults to 0, and whenever the margin disjunct fires the probability
is below 0.20 and hence below the 0.70 confidence threshold as well, so
only `top < 0.70` determines the outcome. -/
theorem singleton_distribution_rule (fetch : String → Except Unit PyDict) (n l : String)
    (conf p : ℚ) (resp : ScanResponse)
    (hr : analyze_scan fetch n conf [(l, p)] = Except.ok resp)
    (hc : conf = p) :
    resp.is_low_confidence = decide (p < CONFIDENCE_THRESHOLD) ∧
    secondProbOf [(l, p)] = 0 ∧
    (topProbOf [(l, p)] - secondProbOf [(l, p)] < MARGIN_THRESHOLD →
      p < CONFIDENCE_THRESHOLD) := by
  obtain ⟨i, hf, hresp⟩ := (analyze_scan_ok_iff fetch n conf [(l, p)] resp).mp hr
  subst hresp hc
  have htop : topProbOf [(l, conf)] = conf := rfl
  have hsec : secondProbOf [(l, conf)] = 0 := rfl
  have hsub : ∀ hm : topProbOf [(l, conf)] - secondProbOf [(l, conf)] < MARGIN_THRESHOLD,
      conf < CONFIDENCE_THRESHOLD := by
    intro hm
    rw [htop, hsec, sub_zero] at hm
    calc conf < MARGIN_THRESHOLD := hm
      _ < CONFIDENCE_THRESHOLD := by norm_num [MARGIN_THRESHOLD, CONFIDENCE_THRESHOLD]
  refine ⟨?_, hsec, hsub⟩
  rw [buildScanResponse_is_low]
  unfold isLowConfidenceOf
  by_cases hm : topProbOf [(l, conf)] - secondProbOf [(l, conf)] < MARGIN_THRESHOLD
  · rw [decide_eq_true hm, Bool.or_true, decide_eq_true (hsub hm)]
  · rw [decide_eq_false hm, Bool.or_false]

/-- Witness for C6: a certain singleton (probability 1) is not
low-confidence. -/
theorem singleton_distribution_rule_witness :
    (buildScanResponse (fun _ => Except.ok []) "Psoriasis" 1 [("Psoriasis", (1:ℚ))]
        []).is_low_confidence = decide ((1:ℚ) < CONFIDENCE_THRESHOLD) ∧
    ((1:ℚ) < CONFIDENCE_THRESHOLD) = False :=
  ⟨(singleton_distribution_rule (fun _ => Except.ok []) "Psoriasis" "Psoriasis" 1 1
      (buildScanResponse (fun _ => Except.ok []) "Psoriasis" 1 [("Psoriasis", (1:ℚ))] [])
      rfl rfl).1,
   by norm_num [CONFIDENCE_THRESHOLD]⟩

/-- C3 counterexample: on the empty distribution the decision is
low-confidence (margin default 0 < 0.20), yet the primary record is the
fetched one — not the generic "Multiple Possibilities" record — and no
confidence warning is set, because the override branch is additionally
guarded by `sorted_predictions` being non-empty.  So "when is_ambiguous
is true the record is overridden and the warning is set" is false as
stated. -/
theorem ambiguous_override_counterexample :
    (analyze_scan (fun _ => Except.ok []) "Acne" (9/10) []).map
        (fun r => (r.is_low_confidence, r.confidence_warning, r.disease_info))
      = Except.ok (true, none, ([] : PyDict)) ∧
    genericDiseaseInfo ≠ ([] : PyDict) := by
  constructor
  · have h : analyze_scan (fun _ => Except.ok []) "Acne" (9/10) [] =
        Except.ok (buildScanResponse (fun _ => Except.ok []) "Acne" (9/10) [] []) := rfl
    rw [h, buildScanResponse_of_nil]
    rfl
  · intro h
    exact List.noConfusion h

/-- C3 amended: when the decision is low-confidence AND the
distribution is non-empty, the returned primary record is the static
generic record (not fetched) and the confidence warning is set; when
the decision is not low-confidence, the warning is absent and the
candidates list is empty. -/
theorem ambiguity_presentation (fetch : String → Except Unit PyDict) (n : String)
    (conf : ℚ) (d : List (String × ℚ)) (resp : ScanResponse)
    (hr : analyze_scan fetch n conf d = Except.ok resp) :
    (resp.is_low_confidence = true → d ≠ [] →
      resp.confidence_warning = some confidenceWarningText ∧
      resp.disease_info = genericDiseaseInfo) ∧
    (resp.is_low_confidence = false →
      resp.confidence_warning = none ∧ resp.alternate_diseases = []) := by
  obtain ⟨i, hf, hresp⟩ := (analyze_scan_ok_iff fetch n conf d resp).mp hr
  constructor
  · intro hlow hne
    have h : isLowConfidenceOf conf d = true := by
      rw [← buildScanResponse_is_low fetch n conf d i, ← hresp]
      exact hlow
    rw [hresp, buildScanResponse_of_ambiguous fetch n conf d i h hne]
    exact ⟨rfl, rfl⟩
  · intro hlow
    have h : isLowConfidenceOf conf d = false := by
      rw [← buildScanResponse_is_low fetch n conf d i, ← hresp]
      exact hlow
    rw [hresp, buildScanResponse_of_unambiguous fetch n conf d i h]
    exact ⟨rfl, rfl⟩

/-- Witness for C3's amended statement: an ambiguous two-candidate
distribution gets the generic record and the warning; a dominant
single-answer distribution gets neither warning nor candidates. -/
theorem ambiguity_presentation_witness :
    ((buildScanResponse (fun _ => Except.ok []) "Melanoma" (11/20)
        [("Melanoma", (11:ℚ)/20), ("SCC", 2/5)] []).confidence_warning
          = some confidenceWarningText ∧
      (buildScanResponse (fun _ => Except.ok []) "Melanoma" (11/20)
        [("Melanoma", (11:ℚ)/20), ("SCC", 2/5)] []).disease_info = genericDiseaseInfo) ∧
    ((buildScanResponse (fun _ => Except.ok []) "Acne" (9/10)
        [("Acne", (9:ℚ)/10), ("Eczema", 1/10)] []).confidence_warning = none ∧
      (buildScanResponse (fun _ => Except.ok []) "Acne" (9/10)
        [("Acne", (9:ℚ)/10), ("Eczema", 1/10)] []).alternate_diseases = []) := by
  constructor
  · refine (ambiguity_presentation (fun _ => Except.ok []) "Melanoma" (11/20)
      [("Melanoma", (11:ℚ)/20), ("SCC", 2/5)]
      (buildScanResponse (fun _ => Except.ok []) "Melanoma" (11/20)
        [("Melanoma", (11:ℚ)/20), ("SCC", 2/5)] []) rfl).1 ?_ (by intro h; cases h)
    rw [buildScanResponse_is_low]
    norm_num [isLowConfidenceOf, topProbOf, secondProbOf, sortedPreds, List.insertionSort,
      List.orderedInsert, predOrder, CONFIDENCE_THRESHOLD, MARGIN_THRESHOLD]
  · refine (ambiguity_presentation (fun _ => Except.ok []) "Acne" (9/10)
      [("Acne", (9:ℚ)/10), ("Eczema", 1/10)]
      (buildScanResponse (fun _ => Except.ok []) "Acne" (9/10)
        [("Acne", (9:ℚ)/10), ("Eczema", 1/10)] []) rfl).2 ?_
    rw [buildScanResponse_is_low]
    norm_num [isLowConfidenceOf, topProbOf, secondProbOf, sortedPreds, List.insertionSort,
      List.orderedInsert, predOrder, CONFIDENCE_THRESHOLD, MARGIN_THRESHOLD]

theorem buildScanResponseBase64_eq (fetch : String → Except Unit PyDict) (n : String)
    (conf : ℚ) (d : List (String × ℚ)) (i : PyDict) :
    buildScanResponseBase64 fetch n conf d i = buildScanResponse fetch n conf d i := rfl

theorem analyze_scan_base64_eq (fetch : String → Except Unit PyDict) (n : String)
    (conf : ℚ) (d : List (String × ℚ)) :
    analyze_scan_base64 fetch n conf d = analyze_scan fetch n conf d := by
  unfold analyze_scan analyze_scan_base64
  cases h : fetch n
  · rfl
  · exact congrArg Except.ok (buildScanResponseBase64_eq fetch n conf d _)

/-- C9 counterexample: with the confidence value decoupled from the
top sorted probability (confidence 0.5, top probability 0.9, margin
0.8), both endpoints decide low-confidence — the code compares the
model's confidence, not the top probability, against the threshold —
while the canonical rule of spec section 4.1 (stated on the top
probability) decides not ambiguous.  So "both equal the single
canonical rule" is false as stated for every distribution and
confidence value. -/
theorem endpoints_canonical_counterexample :
    (analyze_scan (fun _ => Except.ok []) "Acne" (1/2)
        [("Acne", (9:ℚ)/10), ("BCC", 1/10)]).map (fun r => r.is_low_confidence)
      = Except.ok true ∧
    (analyze_scan_base64 (fun _ => Except.ok []) "Acne" (1/2)
        [("Acne", (9:ℚ)/10), ("BCC", 1/10)]).map (fun r => r.is_low_confidence)
      = Except.ok true ∧
    canonicalIsAmbiguous [("Acne", (9:ℚ)/10), ("BCC", 1/10)] = false := by
  have hb : (buildScanResponse (fun _ => Except.ok []) "Acne" (1/2)
      [("Acne", (9:ℚ)/10), ("BCC", 1/10)] []).is_low_confidence = true := by
    rw [buildScanResponse_is_low]
    unfold isLowConfidenceOf
    rw [decide_eq_true (show (1:ℚ)/2 < CONFIDENCE_THRESHOLD by
      norm_num [CONFIDENCE_THRESHOLD]), Bool.true_or]
  refine ⟨?_, ?_, ?_⟩
  · have h : analyze_scan (fun _ => Except.ok []) "Acne" (1/2)
        [("Acne", (9:ℚ)/10), ("BCC", 1/10)] =
        Except.ok (buildScanResponse (fun _ => Except.ok []) "Acne" (1/2)
          [("Acne", (9:ℚ)/10), ("BCC", 1/10)] []) := rfl
    rw [h, Except.map, hb]
  · have h : analyze_scan_base64 (fun _ => Except.ok []) "Acne" (1/2)
        [("Acne", (9:ℚ)/10), ("BCC", 1/10)] =
        Except.ok (buildScanResponse (fun _ => Except.ok []) "Acne" (1/2)
          [("Acne", (9:ℚ)/10), ("BCC", 1/10)] []) := by
      rw [analyze_scan_base64_eq]
      rfl
    rw [h, Except.map, hb]
  · norm_num [canonicalIsAmbiguous, topProbOf, secondProbOf, sortedPreds, List.insertionSort,
      List.orderedInsert, predOrder, CONFIDENCE_THRESHOLD, MARGIN_THRESHOLD]

/-- C9 amended: the two endpoints compute the whole response — in
particular the low-confidence decision — by the identical rule on
every input, and that decision coincides with the canonical rule of
spec section 4.1 whenever the confidence value equals the top sorted
probability (as the classifier produces it). -/
theorem endpoints_agree_and_match_canonical (fetch : String → Except Unit PyDict) (n : String)
    (conf : ℚ) (d : List (String × ℚ)) :
    analyze_scan fetch n conf d = analyze_scan_base64 fetch n conf d ∧
    (∀ resp, analyze_scan fetch n conf d = Except.ok resp → conf = topProbOf d →
      resp.is_low_confidence = canonicalIsAmbiguous d) := by
  refine ⟨(analyze_scan_base64_eq fetch n conf d).symm, ?_⟩
  intro resp hr hc
  obtain ⟨i, hf, hresp⟩ := (analyze_scan_ok_iff fetch n conf d resp).mp hr
  subst hresp
  rw [buildScanResponse_is_low]
  unfold isLowConfidenceOf canonicalIsAmbiguous
  rw [hc]

/-- Witness for C9's amended statement on the spec's ambiguous
scenario with the coupled confidence. -/
theorem endpoints_agree_and_match_canonical_witness :
    analyze_scan (fun _ => Except.ok []) "Melanoma" (11/20)
        [("Melanoma", (11:ℚ)/20), ("SCC", 2/5)]
      = analyze_scan_base64 (fun _ => Except.ok []) "Melanoma" (11/20)
        [("Melanoma", (11:ℚ)/20), ("SCC", 2/5)] ∧
    (buildScanResponse (fun _ => Except.ok []) "Melanoma" (11/20)
        [("Melanoma", (11:ℚ)/20), ("SCC", 2/5)] []).is_low_confidence
      = canonicalIsAmbiguous [("Melanoma", (11:ℚ)/20), ("SCC", 2/5)] :=
  ⟨(endpoints_agree_and_match_canonical (fun _ => Except.ok []) "Melanoma" (11/20)
      [("Melanoma", (11:ℚ)/20), ("SCC", 2/5)]).1,
   (endpoints_agree_and_match_canonical (fun _ => Except.ok []) "Melanoma" (11/20)
      [("Melanoma", (11:ℚ)/20), ("SCC", 2/5)]).2
      (buildScanResponse (fun _ => Except.ok []) "Melanoma" (11/20)
        [("Melanoma", (11:ℚ)/20), ("SCC", 2/5)] []) rfl
      (by norm_num [topProbOf, sortedPreds, List.insertionSort, List.orderedInsert, predOrder])⟩

/-- C4: in the ambiguous case (with the classifier coupling that makes
the predicted disease the head of the stable descending sort), the
candidates list is exactly the first at-most-3 sorted distribution
entries in order, its length never exceeds 3 nor the number of
categories, its first element is the primary label, and the primary
candidate's record is the already-fetched primary record (reused, not
re-fetched). -/
theorem alternate_candidates_structure (fetch : String → Except Unit PyDict) (n : String)
    (conf : ℚ) (d : List (String × ℚ)) (i : PyDict) (resp : ScanResponse)
    (hf : fetch n = Except.ok i)
    (hr : analyze_scan fetch n conf d = Except.ok resp)
    (hlow : resp.is_low_confidence = true)
    (hhead : (sortedPreds d).head?.map Prod.fst = some n) :
    resp.alternate_diseases.map (fun a => (a.name, a.probability)) = (sortedPreds d).take 3 ∧
    resp.alternate_diseases.length ≤ 3 ∧
    resp.alternate_diseases.length ≤ d.length ∧
    resp.alternate_diseases.head?.map (fun a => a.name) = some n ∧
    resp.alternate_diseases.head?.map (fun a => a.disease_info) = some i := by
  obtain ⟨j, hfj, hresp⟩ := (analyze_scan_ok_iff fetch n conf d resp).mp hr
  rw [hf] at hfj
  obtain rfl : i = j := Except.ok.inj hfj
  have hne : d ≠ [] := by
    intro hd
    subst hd
    simp [sortedPreds, List.insertionSort] at hhead
  have h : isLowConfidenceOf conf d = true := by
    rw [← buildScanResponse_is_low fetch n conf d i, ← hresp]
    exact hlow
  rw [hresp, buildScanResponse_of_ambiguous fetch n conf d i h hne]
  simp only [alternatesOf_eq]
  cases hs : sortedPreds d with
  | nil =>
    rw [hs] at hhead
    simp at hhead
  | cons x rest =>
    have hx : x.1 = n := by
      rw [hs] at hhead
      simpa using hhead
    unfold topCandidatesOf
    rw [hs, List.take_succ_cons]
    refine ⟨?_, ?_, ?_, ?_, ?_⟩
    · rw [List.map_map]
      have hcomp : ((fun a : AltDisease => (a.name, a.probability)) ∘
          fun c : String × ℚ => AltDisease.mk c.1 c.2 (infoFor fetch n i c.1))
          = fun c : String × ℚ => (c.1, c.2) := rfl
      rw [hcomp]
      have hid : (fun c : String × ℚ => (c.1, c.2)) = id := funext fun c => Prod.mk.eta
      rw [hid, List.map_id]
    · rw [List.length_map]
      have := List.length_take_le 3 (sortedPreds d)
      rw [hs, List.take_succ_cons] at this
      exact this
    · rw [List.length_map]
      have h1 : ((x :: rest).take 3).length ≤ (x :: rest).length := by
        rw [List.length_take]
        exact min_le_right _ _
      rw [List.take_succ_cons] at h1
      calc (x :: rest.take 2).length ≤ (x :: rest).length := h1
        _ = (sortedPreds d).length := by rw [hs]
        _ = d.length := length_sortedPreds d
    · rw [List.map_cons]
      simp only [List.head?_cons, Option.map_some]
      rw [hx]
      rfl
    · rw [List.map_cons]
      simp only [List.head?_cons, Option.map_some]
      rw [show infoFor fetch n i x.1 = i from by rw [hx]; unfold infoFor; rw [if_pos rfl]]
      rfl

/-- Witness for C4 at the spec's scenario (Melanoma 0.55, SCC 0.40,
BCC 0.05) with a fetch oracle tagging each record by name. -/
theorem alternate_candidates_structure_witness :
    (buildScanResponse (fun s => Except.ok [("name", PyVal.str s)]) "Melanoma" (11/20)
        [("Melanoma", (11:ℚ)/20), ("SCC", 2/5), ("BCC", 1/20)]
        [("name", PyVal.str "Melanoma")]).alternate_diseases.map
          (fun a => (a.name, a.probability))
      = (sortedPreds [("Melanoma", (11:ℚ)/20), ("SCC", 2/5), ("BCC", 1/20)]).take 3 ∧
    (buildScanResponse (fun s => Except.ok [("name", PyVal.str s)]) "Melanoma" (11/20)
        [("Melanoma", (11:ℚ)/20), ("SCC", 2/5), ("BCC", 1/20)]
        [("name", PyVal.str "Melanoma")]).alternate_diseases.head?.map (fun a => a.name)
      = some "Melanoma" ∧
    (buildScanResponse (fun s => Except.ok [("name", PyVal.str s)]) "Melanoma" (11/20)
        [("Melanoma", (11:ℚ)/20), ("SCC", 2/5), ("BCC", 1/20)]
        [("name", PyVal.str "Melanoma")]).alternate_diseases.head?.map
          (fun a => a.disease_info)
      = some [("name", PyVal.str "Melanoma")] := by
  have hthm := alternate_candidates_structure (fun s => Except.ok [("name", PyVal.str s)])
    "Melanoma" (11/20) [("Melanoma", (11:ℚ)/20), ("SCC", 2/5), ("BCC", 1/20)]
    [("name", PyVal.str "Melanoma")]
    (buildScanResponse (fun s => Except.ok [("name", PyVal.str s)]) "Melanoma" (11/20)
      [("Melanoma", (11:ℚ)/20), ("SCC", 2/5), ("BCC", 1/20)] [("name", PyVal.str "Melanoma")])
    rfl rfl
    (by
      rw [buildScanResponse_is_low]
      norm_num [isLowConfidenceOf, topProbOf, secondProbOf, sortedPreds, List.insertionSort,
        List.orderedInsert, predOrder, CONFIDENCE_THRESHOLD, MARGIN_THRESHOLD])
    (by
      norm_num [sortedPreds, List.insertionSort, List.orderedInsert, predOrder])
  exact ⟨hthm.1, hthm.2.2.2.1, hthm.2.2.2.2⟩

instance : IsTotal (String × ℚ) predOrder := ⟨fun a b => le_total b.2 a.2⟩

instance : IsTrans (String × ℚ) predOrder := ⟨fun _ _ _ h1 h2 => le_trans h2 h1⟩

/-- The head of the stable descending sort carries the maximum
probability of the distribution.  This justifies the coupling
hypotheses above: `model_service.predict` returns
`float(probabilities[argmax])` as the confidence, which is exactly the
maximum probability, i.e. the top sorted probability. -/
theorem topProbOf_is_max (d : List (String × ℚ)) (x : String × ℚ) (hx : x ∈ d) :
    x.2 ≤ topProbOf d := by
  have hmem : x ∈ sortedPreds d := (List.mem_insertionSort predOrder).mpr hx
  have hs : List.Sorted predOrder (sortedPreds d) := List.sorted_insertionSort predOrder d
  unfold topProbOf
  cases hss : sortedPreds d with
  | nil =>
    rw [hss] at hmem
    cases hmem
  | cons y rest =>
    rw [hss] at hmem hs
    rcases List.mem_cons.mp hmem with h1 | h2
    · rw [h1]
    · exact (List.sorted_cons.mp hs).1 x h2

/-- The entry `np.argmax` selects in `model_service.predict` (lines
101-103): the first entry carrying the maximum probability.
`predict` reports its label as the disease and its probability as the
confidence. -/
def firstMaxEntry : List (String × ℚ) → Option (String × ℚ)
  | [] => none
  | x :: xs =>
    match firstMaxEntry xs with
    | none => some x
    | some y => if y.2 ≤ x.2 then some x else some y

/-- Stability of the descending sort: its head is exactly the first
maximum entry of the distribution — the entry `model_service.predict`
reports as `(disease, confidence)`.  Hence the coupling hypotheses of
the ambiguity theorems (confidence = top sorted probability, predicted
label = head label) hold for every classifier output. -/
theorem head_sortedPreds_eq_firstMaxEntry (d : List (String × ℚ)) :
    (sortedPreds d).head? = firstMaxEntry d := by
  induction d with
  | nil => rfl
  | cons x xs ih =>
    show (List.orderedInsert predOrder x (sortedPreds xs)).head? = firstMaxEntry (x :: xs)
    cases hs : sortedPreds xs with
    | nil =>
      rw [hs] at ih
      show some x = firstMaxEntry (x :: xs)
      unfold firstMaxEntry
      rw [← ih]
      rfl
    | cons y rest =>
      rw [hs] at ih
      unfold firstMaxEntry
      rw [← ih]
      simp only [List.head?_cons]
      show (List.orderedInsert predOrder x (y :: rest)).head? = _
      by_cases hxy : predOrder x y
      · rw [List.orderedInsert, if_pos hxy]
        have : y.2 ≤ x.2 := hxy
        rw [if_pos this]
        rfl
      · rw [List.orderedInsert, if_neg hxy]
        have : ¬ y.2 ≤ x.2 := hxy
        rw [if_neg this]
        rfl

/-- Bridge form of the stability property: if the classifier's argmax
entry is `(n, p)`, then the head label of the stable descending sort is
`n` — the hypothesis shape used by the candidate-structure theorem. -/
theorem head_label_of_firstMaxEntry (d : List (String × ℚ)) (n : String) (p : ℚ)
    (h : firstMaxEntry d = some (n, p)) :
    (sortedPreds d).head?.map Prod.fst = some n := by
  rw [head_sortedPreds_eq_firstMaxEntry, h]
  rfl
